import Mathlib

/-!
# Verification of the `rtspstreamer` / `rtmpstreamer~` audio streaming externals

A shallow embedding, in Lean 4, of the two Pure Data externals found in
`src/rtmpstreamer~.c` and `src/rtspstreamer.c`.  Both externals assemble
host-delivered audio blocks into an FFmpeg `AVFrame`, submit the frame to an
encoder, drain packets and transmit them.

Modelling conventions:
* C `float` samples are modelled by `ℚ`.  The clamping comparisons against
  `-1.0f` / `1.0f` and the conversion `(int16_t)(sample * 32767.0f)` are exact
  on the representable inputs considered, so the rational idealisation is
  faithful for the order/range properties proved here.
* The `int64_t` presentation timestamp `pts` is modelled by `ℤ` (the C code
  only ever adds non-negative block lengths to it).
* Calls into FFmpeg and into the Pd host are opaque: each call is recorded as
  an `Ev` event in an explicit trace, and the success/failure of each fallible
  call, together with the encoder's packet production, is supplied by an
  explicit environment (`FfEnv`, `PerformEnv`).
* Out-of-bounds buffer writes and null-pointer dereferences — undefined
  behaviour in C — are modelled by `Option`: a function returns `none` exactly
  when the C code would perform such an access.
-/

/-! ## Sample conversion (perform functions, both variants)

`rtmpstreamer~.c` lines 77–85 clamp each incoming sample to `[-1.0, 1.0]` with
two successive `if` statements and store it unchanged (float planar).
`rtspstreamer.c` lines 75–80 clamp identically and then convert with
`(int16_t)(sample * 32767.0f)`, a truncation toward zero. -/

/-- The two successive `if` clamps applied to each incoming sample:
`if (sample < -1.0f) sample = -1.0f; if (sample > 1.0f) sample = 1.0f;`. -/
def clampSample (s : ℚ) : ℚ :=
  let s1 := if s < -1 then -1 else s
  if s1 > 1 then 1 else s1

/-- Truncation toward zero, the semantics of the C cast `(int16_t)` applied to
a float value whose integral part fits in the target type. -/
def truncQ (q : ℚ) : ℤ :=
  if 0 ≤ q then ⌊q⌋ else ⌈q⌉

/-- The 16-bit conversion of `rtspstreamer.c` line 79:
`samples[i] = (int16_t)(sample * 32767.0f);` applied after the clamp. -/
def convS16 (s : ℚ) : ℤ :=
  truncQ (clampSample s * 32767)

theorem clampSample_le_one (s : ℚ) : clampSample s ≤ 1 := by
  simp only [clampSample]
  split_ifs <;> linarith

theorem neg_one_le_clampSample (s : ℚ) : -1 ≤ clampSample s := by
  simp only [clampSample]
  split_ifs <;> linarith

theorem clampSample_mono {s t : ℚ} (h : s ≤ t) : clampSample s ≤ clampSample t := by
  simp only [clampSample]
  split_ifs <;> linarith

theorem clampSample_of_mem {s : ℚ} (h1 : -1 ≤ s) (h2 : s ≤ 1) : clampSample s = s := by
  simp only [clampSample]
  split_ifs <;> linarith

theorem truncQ_mono {a b : ℚ} (h : a ≤ b) : truncQ a ≤ truncQ b := by
  unfold truncQ
  split_ifs with ha hb
  · exact Int.floor_mono h
  · linarith
  · calc ⌈a⌉ ≤ 0 := Int.ceil_le.mpr (by push_cast; linarith)
      _ ≤ ⌊b⌋ := Int.le_floor.mpr (by push_cast; linarith)
  · exact Int.ceil_mono h

theorem truncQ_le {q : ℚ} {z : ℤ} (hq : q ≤ z) : truncQ q ≤ z := by
  unfold truncQ
  split_ifs with h
  · exact (Int.floor_mono hq).trans_eq (Int.floor_intCast z)
  · exact Int.ceil_le.mpr hq

theorem le_truncQ {q : ℚ} {z : ℤ} (hq : (z : ℚ) ≤ q) : z ≤ truncQ q := by
  unfold truncQ
  split_ifs with h
  · exact Int.le_floor.mpr hq
  · exact le_of_eq_of_le (Int.ceil_intCast z).symm (Int.ceil_mono hq)

/-! ## Diagnostics and call events

Every call the externals make into FFmpeg or into the Pd logging facility is
recorded as an event.  Diagnostic messages are identified by which source line
emits them. -/

/-- The diagnostic messages emitted via `post` (informational) and `pd_error`
(error-level) in the two source files. -/
inductive Msg
  | validUrlAtCreation
  | invalidUrlAtCreation
  | attemptingStream
  | streamingSuccess
  | initFailed
  | invalidOrEmptyUrl
  | changingUrlUnsupported
  | couldNotAllocOutputCtx
  | codecNotFound
  | couldNotAllocStream
  | couldNotAllocCodecCtx
  | couldNotSetChLayout
  | couldNotOpenCodec
  | couldNotCopyParams
  | couldNotOpenUrl
  | errorOpeningOutputUrl
  | couldNotAllocFrame
  | couldNotAllocBuffers
  | couldNotCopyFrameChLayout
  | errorSendingFrame
  | errorEncodingFrame
  | errorWritingFrame
deriving DecidableEq

/-- One observable call made by the external: FFmpeg lifecycle calls, encoder
and transport calls, frame-field stores (`stampFrame` records the assignment of
`frame->pts` and `frame->nb_samples`), and host log lines. -/
inductive Ev
  | networkInit
  | allocOutputCtx
  | findEncoder
  | newStream
  | allocCodecCtx
  | chLayoutCopy
  | openCodec
  | paramsFromCtx
  | avioOpen
  | writeHeader
  | allocFrame
  | getBuffer
  | stampFrame (pts : Int) (n : Nat)
  | sendFrame
  | recvPacket
  | writeFrame (ok : Bool)
  | packetUnref
  | writeTrailer
  | avioClose
  | freeFmtCtx
  | freeCodecCtx
  | freeFrame
  | networkDeinit
  | post (m : Msg)
  | pdError (m : Msg)
deriving DecidableEq

/-- Calls that acquire an external resource or start the remote stream
(`avformat_alloc_output_context2`, `avformat_new_stream`,
`avcodec_alloc_context3`, `avcodec_open2`, `avio_open`,
`avformat_write_header`, `av_frame_alloc`, `av_frame_get_buffer`). -/
def isAcquire : Ev → Bool
  | .allocOutputCtx | .newStream | .allocCodecCtx | .openCodec
  | .avioOpen | .writeHeader | .allocFrame | .getBuffer => true
  | _ => false

/-- Calls that release an external resource or finalise the remote stream
(`av_write_trailer`, `avio_closep`, `avformat_free_context`,
`avcodec_free_context`, `av_frame_free`). -/
def isRelease : Ev → Bool
  | .writeTrailer | .avioClose | .freeFmtCtx | .freeCodecCtx | .freeFrame => true
  | _ => false

/-- Encoder calls (`avcodec_send_frame`, `avcodec_receive_packet`) and
transport writes (`av_interleaved_write_frame`). -/
def isEncoderOrTransportCall : Ev → Bool
  | .sendFrame | .recvPacket | .writeFrame _ => true
  | _ => false

/-! ## The reusable encoder frame and the frame assembler

Both perform functions run
`for (int i = 0; i < n; i++) { ... samples[i] = conv(in[i]); }` over the
frame's data buffer, then store `frame->nb_samples = n` and
`frame->pts = x->pts`.  The data buffer was allocated once at connect time
with capacity `frame->nb_samples` (the codec's `frame_size`, or 1024 if the
codec reports 0); the loop performs no bounds check, so writing index
`i ≥ capacity` is an out-of-bounds store, modelled as `none`. -/

/-- The session-owned `AVFrame`: a data buffer whose length is the allocated
capacity, the declared `nb_samples`, and the frame `pts`. -/
structure AVFrame (α : Type) where
  data : List α
  nb_samples : Nat
  pts : Int
deriving DecidableEq

/-- The sample store loop `samples[i] = conv(in[i])`, starting at index `i`.
A store at an index outside the allocated buffer is undefined behaviour,
returned as `none`. -/
def writeSamples (conv : ℚ → α) (buf : List α) (input : List ℚ) (i : Nat) :
    Option (List α) :=
  match input with
  | [] => some buf
  | s :: rest =>
    if i < buf.length then
      writeSamples conv (buf.set i (conv s)) rest (i + 1)
    else
      none

/-- The whole conversion loop of the perform functions, from index 0. -/
def assembleSamples (conv : ℚ → α) (buf : List α) (input : List ℚ) :
    Option (List α) :=
  writeSamples conv buf input 0

/-! ## Environments standing for the opaque FFmpeg library

Each fallible library call's outcome is an explicit input, so every
control-flow path of the C code is reachable in the model. -/

/-- Outcomes of the fallible FFmpeg calls made during connect, plus the
codec-reported `frame_size` and the muxer's `AVFMT_NOFILE` flag. -/
structure FfEnv where
  allocOutputCtxOk : Bool
  findEncoderOk : Bool
  newStreamOk : Bool
  allocCodecCtxOk : Bool
  chLayoutOk : Bool
  openCodecOk : Bool
  paramsOk : Bool
  formatNoFile : Bool
  avioOpenOk : Bool
  writeHeaderOk : Bool
  allocFrameOk : Bool
  frameChLayoutOk : Bool
  getBufferOk : Bool
  codecFrameSize : Nat
deriving DecidableEq

/-- One response of `avcodec_receive_packet` inside the drain loop: a packet
(whose subsequent `av_interleaved_write_frame` succeeds or not), the
`EAGAIN`/`EOF` end-of-drain condition, or a hard encoding error. -/
inductive DrainResp
  | pkt (writeOk : Bool)
  | again
  | err
deriving DecidableEq

/-- Outcomes of the encoder calls made by one perform call:
the `avcodec_send_frame` result and the successive
`avcodec_receive_packet` responses.  An exhausted response list behaves like
`EAGAIN` (the encoder has nothing further to emit). -/
structure PerformEnv where
  sendOk : Bool
  drain : List DrainResp
deriving DecidableEq

/-- The packet drain loop shared by both perform functions
(`rtmpstreamer~.c` lines 101–120, `rtspstreamer.c` lines 97–116):
receive a packet; on `EAGAIN`/`EOF` stop; on hard error report and stop;
otherwise stamp the stream index, transmit with
`av_interleaved_write_frame`, release the packet with `av_packet_unref`
immediately after, and stop with a report if the transmit failed. -/
def drainLoop : List DrainResp → List Ev
  | [] => []
  | .pkt true :: rest =>
    .recvPacket :: .writeFrame true :: .packetUnref :: drainLoop rest
  | .pkt false :: _ =>
    [.recvPacket, .writeFrame false, .packetUnref, .pdError .errorWritingFrame]
  | .again :: _ => [.recvPacket]
  | .err :: _ => [.recvPacket, .pdError .errorEncodingFrame]

/-! ## The RTMP external (`src/rtmpstreamer~.c`) -/

/-- A C string (the Pd symbol's `s_name`). -/
abbrev CStr : Type := List Char

/-- The scheme prefix checked by `is_valid_rtmp_url`: `"rtmp://"`. -/
def rtmpScheme : CStr := ['r', 't', 'm', 'p', ':', '/', '/']

/-- `is_valid_rtmp_url` (lines 129–132): `strncmp(url, "rtmp://", 7) == 0`. -/
def is_valid_rtmp_url (url : CStr) : Bool :=
  List.isPrefixOf rtmpScheme url

/-- The fields of `t_rtmpstreamer_tilde` relevant to the pipeline.  Handle
fields are `Bool` (held or not); `noFile` records the muxer's `AVFMT_NOFILE`
flag as read from the held `fmt_ctx`. -/
structure RtmpState where
  url : Option CStr
  fmt_ctx : Bool
  noFile : Bool
  pb : Bool
  audio_st : Bool
  codec_ctx : Bool
  frame : Option (AVFrame ℚ)
  pts : Int
  streaming_active : Bool
deriving DecidableEq

/-- The negotiated frame capacity: the codec's `frame_size`, or the default
1024 when the codec reports 0 (lines 305–308). -/
def frameCapacity (env : FfEnv) : Nat :=
  if env.codecFrameSize = 0 then 1024 else env.codecFrameSize

/-- `initialize_streaming` (lines 211–317), step for step.  Each fallible
sub-step returns `-1` immediately on failure; no release call appears on any
path.  Returns the updated object, the call trace, and the C return value. -/
def initialize_streaming (x : RtmpState) (env : FfEnv) : RtmpState × List Ev × Int :=
  if !env.allocOutputCtxOk then
    (x, [Ev.networkInit, Ev.allocOutputCtx, Ev.pdError .couldNotAllocOutputCtx], -1)
  else if !env.findEncoderOk then
    ({ x with fmt_ctx := true, noFile := env.formatNoFile },
     [Ev.networkInit, Ev.allocOutputCtx, Ev.findEncoder, Ev.pdError .codecNotFound], -1)
  else if !env.newStreamOk then
    ({ x with fmt_ctx := true, noFile := env.formatNoFile },
     [Ev.networkInit, Ev.allocOutputCtx, Ev.findEncoder, Ev.newStream,
      Ev.pdError .couldNotAllocStream], -1)
  else if !env.allocCodecCtxOk then
    ({ x with fmt_ctx := true, noFile := env.formatNoFile, audio_st := true },
     [Ev.networkInit, Ev.allocOutputCtx, Ev.findEncoder, Ev.newStream, Ev.allocCodecCtx,
      Ev.pdError .couldNotAllocCodecCtx], -1)
  else if !env.chLayoutOk then
    ({ x with fmt_ctx := true, noFile := env.formatNoFile, audio_st := true, codec_ctx := true },
     [Ev.networkInit, Ev.allocOutputCtx, Ev.findEncoder, Ev.newStream, Ev.allocCodecCtx,
      Ev.chLayoutCopy, Ev.pdError .couldNotSetChLayout], -1)
  else if !env.openCodecOk then
    ({ x with fmt_ctx := true, noFile := env.formatNoFile, audio_st := true, codec_ctx := true },
     [Ev.networkInit, Ev.allocOutputCtx, Ev.findEncoder, Ev.newStream, Ev.allocCodecCtx,
      Ev.chLayoutCopy, Ev.openCodec, Ev.pdError .couldNotOpenCodec], -1)
  else if !env.paramsOk then
    ({ x with fmt_ctx := true, noFile := env.formatNoFile, audio_st := true, codec_ctx := true },
     [Ev.networkInit, Ev.allocOutputCtx, Ev.findEncoder, Ev.newStream, Ev.allocCodecCtx,
      Ev.chLayoutCopy, Ev.openCodec, Ev.paramsFromCtx,
      Ev.pdError .couldNotCopyParams], -1)
  else if !env.formatNoFile && !env.avioOpenOk then
    ({ x with fmt_ctx := true, noFile := env.formatNoFile, audio_st := true, codec_ctx := true },
     [Ev.networkInit, Ev.allocOutputCtx, Ev.findEncoder, Ev.newStream, Ev.allocCodecCtx,
      Ev.chLayoutCopy, Ev.openCodec, Ev.paramsFromCtx, Ev.avioOpen,
      Ev.pdError .couldNotOpenUrl], -1)
  else if !env.writeHeaderOk then
    ({ x with fmt_ctx := true, noFile := env.formatNoFile, audio_st := true, codec_ctx := true, pb := if env.formatNoFile then x.pb else true },
     (if env.formatNoFile then
        [Ev.networkInit, Ev.allocOutputCtx, Ev.findEncoder, Ev.newStream, Ev.allocCodecCtx,
         Ev.chLayoutCopy, Ev.openCodec, Ev.paramsFromCtx, Ev.writeHeader,
         Ev.pdError .errorOpeningOutputUrl]
      else
        [Ev.networkInit, Ev.allocOutputCtx, Ev.findEncoder, Ev.newStream, Ev.allocCodecCtx,
         Ev.chLayoutCopy, Ev.openCodec, Ev.paramsFromCtx, Ev.avioOpen, Ev.writeHeader,
         Ev.pdError .errorOpeningOutputUrl]), -1)
  else if !env.allocFrameOk then
    ({ x with fmt_ctx := true, noFile := env.formatNoFile, audio_st := true, codec_ctx := true, pb := if env.formatNoFile then x.pb else true },
     (if env.formatNoFile then
        [Ev.networkInit, Ev.allocOutputCtx, Ev.findEncoder, Ev.newStream, Ev.allocCodecCtx,
         Ev.chLayoutCopy, Ev.openCodec, Ev.paramsFromCtx, Ev.writeHeader, Ev.allocFrame,
         Ev.pdError .couldNotAllocFrame]
      else
        [Ev.networkInit, Ev.allocOutputCtx, Ev.findEncoder, Ev.newStream, Ev.allocCodecCtx,
         Ev.chLayoutCopy, Ev.openCodec, Ev.paramsFromCtx, Ev.avioOpen, Ev.writeHeader,
         Ev.allocFrame, Ev.pdError .couldNotAllocFrame]), -1)
  else if !env.getBufferOk then
    ({ x with fmt_ctx := true, noFile := env.formatNoFile, audio_st := true, codec_ctx := true, pb := if env.formatNoFile then x.pb else true, frame := some ⟨[], frameCapacity env, 0⟩ },
     (if env.formatNoFile then
        [Ev.networkInit, Ev.allocOutputCtx, Ev.findEncoder, Ev.newStream, Ev.allocCodecCtx,
         Ev.chLayoutCopy, Ev.openCodec, Ev.paramsFromCtx, Ev.writeHeader, Ev.allocFrame,
         Ev.getBuffer, Ev.pdError .couldNotAllocBuffers]
      else
        [Ev.networkInit, Ev.allocOutputCtx, Ev.findEncoder, Ev.newStream, Ev.allocCodecCtx,
         Ev.chLayoutCopy, Ev.openCodec, Ev.paramsFromCtx, Ev.avioOpen, Ev.writeHeader,
         Ev.allocFrame, Ev.getBuffer, Ev.pdError .couldNotAllocBuffers]), -1)
  else
    ({ x with fmt_ctx := true, noFile := env.formatNoFile, audio_st := true, codec_ctx := true, pb := if env.formatNoFile then x.pb else true, frame := some ⟨List.replicate (frameCapacity env) 0, frameCapacity env, 0⟩ },
     (if env.formatNoFile then
        [Ev.networkInit, Ev.allocOutputCtx, Ev.findEncoder, Ev.newStream, Ev.allocCodecCtx,
         Ev.chLayoutCopy, Ev.openCodec, Ev.paramsFromCtx, Ev.writeHeader, Ev.allocFrame,
         Ev.getBuffer]
      else
        [Ev.networkInit, Ev.allocOutputCtx, Ev.findEncoder, Ev.newStream, Ev.allocCodecCtx,
         Ev.chLayoutCopy, Ev.openCodec, Ev.paramsFromCtx, Ev.avioOpen, Ev.writeHeader,
         Ev.allocFrame, Ev.getBuffer]), 0)

/-- `cleanup_streaming` (lines 320–338): write the trailer, close the avio
transport unless the muxer is `AVFMT_NOFILE`, free the format context, free
the codec context, free the frame — each guarded by a null check, each field
nulled after release — then `avformat_network_deinit`.  The `pts` field is
not touched. -/
def cleanup_streaming (x : RtmpState) : RtmpState × List Ev :=
  let p1 :=
    if x.fmt_ctx then
      ({ x with fmt_ctx := false, audio_st := false, pb := false },
       [Ev.writeTrailer] ++ (if x.noFile then [] else [Ev.avioClose]) ++ [Ev.freeFmtCtx])
    else (x, ([] : List Ev))
  let p2 :=
    if p1.1.codec_ctx then
      ({ p1.1 with codec_ctx := false }, [Ev.freeCodecCtx])
    else (p1.1, ([] : List Ev))
  let p3 :=
    if p2.1.frame.isSome then
      ({ p2.1 with frame := none }, [Ev.freeFrame])
    else (p2.1, ([] : List Ev))
  (p3.1, p1.2 ++ p2.2 ++ p3.2 ++ [Ev.networkDeinit])

/-- `rtmpstreamer_tilde_new` (lines 135–162): initialise every field (pts = 0,
streaming inactive, no handles), store the URL only when it is non-empty and
passes `is_valid_rtmp_url`, and emit one informational log line.  No FFmpeg
call is made at creation. -/
def rtmpstreamer_tilde_new (s : CStr) : RtmpState × List Ev :=
  let x : RtmpState :=
    { url := none, fmt_ctx := false, noFile := false, pb := false,
      audio_st := false, codec_ctx := false, frame := none, pts := 0,
      streaming_active := false }
  if 0 < s.length ∧ is_valid_rtmp_url s = true then
    ({ x with url := some s }, [Ev.post .validUrlAtCreation])
  else
    (x, [Ev.post .invalidUrlAtCreation])

/-- `rtmpstreamer_tilde_symbol` (lines 165–187): if streaming, run
`cleanup_streaming` and clear the flag; store the new URL; if the URL is
non-empty (no scheme validation here), attempt `initialize_streaming` and on
return value 0 set the flag. -/
def rtmpstreamer_tilde_symbol (x : RtmpState) (s : CStr) (env : FfEnv) :
    RtmpState × List Ev :=
  let p1 :=
    if x.streaming_active then
      let c := cleanup_streaming x
      ({ c.1 with streaming_active := false }, c.2)
    else (x, ([] : List Ev))
  let x2 := { p1.1 with url := some s }
  if 0 < s.length then
    let r := initialize_streaming x2 env
    if r.2.2 = 0 then
      ({ r.1 with streaming_active := true },
       p1.2 ++ ([Ev.post .attemptingStream] ++ r.2.1 ++ [Ev.post .streamingSuccess]))
    else
      (r.1, p1.2 ++ ([Ev.post .attemptingStream] ++ r.2.1 ++ [Ev.pdError .initFailed]))
  else
    (x2, p1.2 ++ [Ev.post .invalidOrEmptyUrl])

/-- `rtmpstreamer_tilde_perform` (lines 64–127): when `streaming_active` is
unset, return immediately with no call at all.  Otherwise convert the block
into the frame (clamped float planar), stamp `nb_samples` and `pts`, advance
the clock, submit the frame and drain packets.  A null `frame` dereference or
an out-of-bounds store is undefined behaviour (`none`). -/
def rtmpstreamer_tilde_perform (x : RtmpState) (input : List ℚ) (env : PerformEnv) :
    Option (RtmpState × List Ev) :=
  if x.streaming_active then
    match x.frame with
    | none => none
    | some f =>
      match assembleSamples clampSample f.data input with
      | none => none
      | some d =>
        let x' := { x with frame := some ⟨d, input.length, x.pts⟩,
                           pts := x.pts + (input.length : Int) }
        if env.sendOk then
          some (x', [Ev.stampFrame x.pts input.length, Ev.sendFrame] ++ drainLoop env.drain)
        else
          some (x', [Ev.stampFrame x.pts input.length, Ev.sendFrame,
                     Ev.pdError .errorSendingFrame])
  else
    some (x, [])

/-- `rtmpstreamer_tilde_free` (lines 190–195): clean up only when streaming. -/
def rtmpstreamer_tilde_free (x : RtmpState) : RtmpState × List Ev :=
  if x.streaming_active then cleanup_streaming x else (x, [])

/-! ## The RTSP external (`src/rtspstreamer.c`) -/

/-- The fields of `t_rtspstreamer_tilde` relevant to the pipeline. -/
structure RtspState where
  url : CStr
  fmt_ctx : Bool
  noFile : Bool
  pb : Bool
  audio_st : Bool
  codec_ctx : Bool
  frame : Option (AVFrame ℤ)
  pts : Int
deriving DecidableEq

/-- `rtspstreamer_tilde_new` (lines 122–230): the whole connect sequence runs
in the constructor.  Any sub-step failure reports and returns `NULL` — the
object is never handed to the host (`none`), and no release call appears on
any path.  There is no `avcodec_open2` call in this variant.  On success the
object holds the format context, codec context and allocated frame. -/
def rtspstreamer_tilde_new (s : CStr) (env : FfEnv) : Option RtspState × List Ev :=
  if !env.allocOutputCtxOk then
    (none, [Ev.networkInit, Ev.allocOutputCtx, Ev.pdError .couldNotAllocOutputCtx])
  else if !env.findEncoderOk then
    (none, [Ev.networkInit, Ev.allocOutputCtx, Ev.findEncoder, Ev.pdError .codecNotFound])
  else if !env.newStreamOk then
    (none, [Ev.networkInit, Ev.allocOutputCtx, Ev.findEncoder, Ev.newStream,
            Ev.pdError .couldNotAllocStream])
  else if !env.allocCodecCtxOk then
    (none, [Ev.networkInit, Ev.allocOutputCtx, Ev.findEncoder, Ev.newStream,
            Ev.allocCodecCtx, Ev.pdError .couldNotAllocCodecCtx])
  else if !env.chLayoutOk then
    (none, [Ev.networkInit, Ev.allocOutputCtx, Ev.findEncoder, Ev.newStream,
            Ev.allocCodecCtx, Ev.chLayoutCopy, Ev.pdError .couldNotSetChLayout])
  else if !env.paramsOk then
    (none, [Ev.networkInit, Ev.allocOutputCtx, Ev.findEncoder, Ev.newStream,
            Ev.allocCodecCtx, Ev.chLayoutCopy, Ev.paramsFromCtx,
            Ev.pdError .couldNotCopyParams])
  else if !env.formatNoFile && !env.avioOpenOk then
    (none, [Ev.networkInit, Ev.allocOutputCtx, Ev.findEncoder, Ev.newStream,
            Ev.allocCodecCtx, Ev.chLayoutCopy, Ev.paramsFromCtx, Ev.avioOpen,
            Ev.pdError .couldNotOpenUrl])
  else if !env.writeHeaderOk then
    (none,
     (if env.formatNoFile then
        [Ev.networkInit, Ev.allocOutputCtx, Ev.findEncoder, Ev.newStream, Ev.allocCodecCtx,
         Ev.chLayoutCopy, Ev.paramsFromCtx, Ev.writeHeader,
         Ev.pdError .errorOpeningOutputUrl]
      else
        [Ev.networkInit, Ev.allocOutputCtx, Ev.findEncoder, Ev.newStream, Ev.allocCodecCtx,
         Ev.chLayoutCopy, Ev.paramsFromCtx, Ev.avioOpen, Ev.writeHeader,
         Ev.pdError .errorOpeningOutputUrl]))
  else if !env.allocFrameOk then
    (none,
     (if env.formatNoFile then
        [Ev.networkInit, Ev.allocOutputCtx, Ev.findEncoder, Ev.newStream, Ev.allocCodecCtx,
         Ev.chLayoutCopy, Ev.paramsFromCtx, Ev.writeHeader, Ev.allocFrame,
         Ev.pdError .couldNotAllocFrame]
      else
        [Ev.networkInit, Ev.allocOutputCtx, Ev.findEncoder, Ev.newStream, Ev.allocCodecCtx,
         Ev.chLayoutCopy, Ev.paramsFromCtx, Ev.avioOpen, Ev.writeHeader, Ev.allocFrame,
         Ev.pdError .couldNotAllocFrame]))
  else if !env.frameChLayoutOk then
    (none,
     (if env.formatNoFile then
        [Ev.networkInit, Ev.allocOutputCtx, Ev.findEncoder, Ev.newStream, Ev.allocCodecCtx,
         Ev.chLayoutCopy, Ev.paramsFromCtx, Ev.writeHeader, Ev.allocFrame, Ev.chLayoutCopy,
         Ev.pdError .couldNotCopyFrameChLayout]
      else
        [Ev.networkInit, Ev.allocOutputCtx, Ev.findEncoder, Ev.newStream, Ev.allocCodecCtx,
         Ev.chLayoutCopy, Ev.paramsFromCtx, Ev.avioOpen, Ev.writeHeader, Ev.allocFrame,
         Ev.chLayoutCopy, Ev.pdError .couldNotCopyFrameChLayout]))
  else if !env.getBufferOk then
    (none,
     (if env.formatNoFile then
        [Ev.networkInit, Ev.allocOutputCtx, Ev.findEncoder, Ev.newStream, Ev.allocCodecCtx,
         Ev.chLayoutCopy, Ev.paramsFromCtx, Ev.writeHeader, Ev.allocFrame, Ev.chLayoutCopy,
         Ev.getBuffer, Ev.pdError .couldNotAllocBuffers]
      else
        [Ev.networkInit, Ev.allocOutputCtx, Ev.findEncoder, Ev.newStream, Ev.allocCodecCtx,
         Ev.chLayoutCopy, Ev.paramsFromCtx, Ev.avioOpen, Ev.writeHeader, Ev.allocFrame,
         Ev.chLayoutCopy, Ev.getBuffer, Ev.pdError .couldNotAllocBuffers]))
  else
    (some { url := s, fmt_ctx := true, noFile := env.formatNoFile, pb := !env.formatNoFile, audio_st := true, codec_ctx := true, frame := some ⟨List.replicate (frameCapacity env) 0, frameCapacity env, 0⟩, pts := 0 },
     (if env.formatNoFile then
        [Ev.networkInit, Ev.allocOutputCtx, Ev.findEncoder, Ev.newStream, Ev.allocCodecCtx,
         Ev.chLayoutCopy, Ev.paramsFromCtx, Ev.writeHeader, Ev.allocFrame, Ev.chLayoutCopy,
         Ev.getBuffer]
      else
        [Ev.networkInit, Ev.allocOutputCtx, Ev.findEncoder, Ev.newStream, Ev.allocCodecCtx,
         Ev.chLayoutCopy, Ev.paramsFromCtx, Ev.avioOpen, Ev.writeHeader, Ev.allocFrame,
         Ev.chLayoutCopy, Ev.getBuffer]))

/-- `rtspstreamer_tilde_symbol` (lines 52–56): store the new URL and report
that runtime URL changes are unsupported.  No other call is made. -/
def rtspstreamer_tilde_symbol (x : RtspState) (s : CStr) : RtspState × List Ev :=
  ({ x with url := s }, [Ev.pdError .changingUrlUnsupported])

/-- `rtspstreamer_tilde_perform` (lines 65–119): identical to the RTMP perform
except that there is no `streaming_active` guard and samples are converted to
16-bit integers with `(int16_t)(sample * 32767.0f)`. -/
def rtspstreamer_tilde_perform (x : RtspState) (input : List ℚ) (env : PerformEnv) :
    Option (RtspState × List Ev) :=
  match x.frame with
  | none => none
  | some f =>
    match assembleSamples convS16 f.data input with
    | none => none
    | some d =>
      let x' := { x with frame := some ⟨d, input.length, x.pts⟩,
                         pts := x.pts + (input.length : Int) }
      if env.sendOk then
        some (x', [Ev.stampFrame x.pts input.length, Ev.sendFrame] ++ drainLoop env.drain)
      else
        some (x', [Ev.stampFrame x.pts input.length, Ev.sendFrame,
                   Ev.pdError .errorSendingFrame])

/-- `rtspstreamer_tilde_free` (lines 233–250): release whatever is held, each
release guarded by a null check, then `avformat_network_deinit`.  The `pts`
field is not touched. -/
def rtspstreamer_tilde_free (x : RtspState) : RtspState × List Ev :=
  let p1 :=
    if x.fmt_ctx then
      ({ x with fmt_ctx := false, audio_st := false, pb := false },
       [Ev.writeTrailer] ++ (if x.noFile then [] else [Ev.avioClose]) ++ [Ev.freeFmtCtx])
    else (x, ([] : List Ev))
  let p2 :=
    if p1.1.codec_ctx then
      ({ p1.1 with codec_ctx := false }, [Ev.freeCodecCtx])
    else (p1.1, ([] : List Ev))
  let p3 :=
    if p2.1.frame.isSome then
      ({ p2.1 with frame := none }, [Ev.freeFrame])
    else (p2.1, ([] : List Ev))
  (p3.1, p1.2 ++ p2.2 ++ p3.2 ++ [Ev.networkDeinit])

/-! ## Multi-block driver (used to state the presentation-clock properties) -/

/-- Run the RTMP perform function over consecutive audio blocks. -/
def runBlocks (x : RtmpState) : List (List ℚ × PerformEnv) → Option (RtmpState × List Ev)
  | [] => some (x, [])
  | (b, env) :: rest =>
    match rtmpstreamer_tilde_perform x b env with
    | none => none
    | some (x', tr) =>
      match runBlocks x' rest with
      | none => none
      | some (x2, tr2) => some (x2, tr ++ tr2)

/-- The frame presentation timestamps recorded in a trace, in order. -/
def stamps (tr : List Ev) : List Int :=
  tr.filterMap fun e =>
    match e with
    | .stampFrame p _ => some p
    | _ => none

/-- The expected timestamp sequence: running sums of the block lengths,
starting from a given clock value. -/
def stampsFrom (a : Int) : List Nat → List Int
  | [] => []
  | n :: ns => a :: stampsFrom (a + (n : Int)) ns

/-! ## Lemmas about the frame assembler -/

theorem writeSamples_length {α : Type} {conv : ℚ → α} :
    ∀ (input : List ℚ) (buf : List α) (i : Nat) (out : List α),
      writeSamples conv buf input i = some out → out.length = buf.length
  | [], buf, i, out, h => by
    simp only [writeSamples, Option.some.injEq] at h
    exact h ▸ rfl
  | s :: rest, buf, i, out, h => by
    simp only [writeSamples] at h
    split_ifs at h with hi
    · have := writeSamples_length rest (buf.set i (conv s)) (i + 1) out h
      simpa [List.length_set] using this

theorem writeSamples_isSome {α : Type} {conv : ℚ → α} :
    ∀ (input : List ℚ) (buf : List α) (i : Nat),
      (writeSamples conv buf input i).isSome = true ↔
        (input = [] ∨ i + input.length ≤ buf.length)
  | [], buf, i => by simp [writeSamples]
  | s :: rest, buf, i => by
    simp only [writeSamples]
    split_ifs with hi
    · rw [writeSamples_isSome rest (buf.set i (conv s)) (i + 1)]
      simp only [List.length_set]
      constructor
      · rintro (rfl | h)
        · right; simpa using hi
        · right; simp only [List.length_cons]; omega
      · rintro (h | h)
        · exact absurd h (by simp)
        · simp only [List.length_cons] at h
          rcases rest with - | ⟨r, rs⟩
          · exact Or.inl rfl
          · right; omega
    · constructor
      · intro h; exact absurd h (by simp)
      · rintro (h | h)
        · exact absurd h (by simp)
        · exact absurd h (by simp only [List.length_cons]; omega)

theorem writeSamples_get? {α : Type} {conv : ℚ → α} :
    ∀ (input : List ℚ) (buf : List α) (i : Nat) (out : List α),
      writeSamples conv buf input i = some out →
      ∀ j : Nat, out[j]? =
        if i ≤ j ∧ j < i + input.length then (input[j - i]?).map conv else buf[j]?
  | [], buf, i, out, h, j => by
    simp only [writeSamples, Option.some.injEq] at h
    subst h
    rw [if_neg (by simp only [List.length_nil]; omega)]
  | s :: rest, buf, i, out, h, j => by
    simp only [writeSamples] at h
    split_ifs at h with hi
    have ih := writeSamples_get? rest (buf.set i (conv s)) (i + 1) out h j
    by_cases hj1 : i + 1 ≤ j ∧ j < i + 1 + rest.length
    · rw [if_pos hj1] at ih
      rw [ih, if_pos (by simp only [List.length_cons]; omega)]
      have hsub : j - i = (j - (i + 1)) + 1 := by omega
      rw [hsub, List.getElem?_cons_succ]
    · rw [if_neg hj1] at ih
      by_cases hj : j = i
      · subst hj
        rw [ih, List.getElem?_set_eq_of_lt (conv s) hi,
          if_pos (by simp only [List.length_cons]; omega)]
        simp
      · rw [ih, List.getElem?_set_ne (fun hc => hj hc.symm),
          if_neg (by simp only [List.length_cons]; omega)]

theorem assembleSamples_isSome {α : Type} (conv : ℚ → α) (buf : List α) (input : List ℚ) :
    (assembleSamples conv buf input).isSome = true ↔ input.length ≤ buf.length := by
  rw [assembleSamples, writeSamples_isSome]
  constructor
  · rintro (rfl | h)
    · simp
    · omega
  · intro h; right; omega

theorem assembleSamples_get? {α : Type} {conv : ℚ → α} {buf out : List α} {input : List ℚ}
    (h : assembleSamples conv buf input = some out) {j : Nat} (hj : j < input.length) :
    out[j]? = (input[j]?).map conv := by
  have := writeSamples_get? input buf 0 out h j
  rw [if_pos (by omega)] at this
  simpa using this

/-! ## Lemmas about the drain loop and traces -/

theorem drainLoop_write_then_unref :
    ∀ (l : List DrainResp) (i : Nat) (b : Bool),
      (drainLoop l)[i]? = some (Ev.writeFrame b) →
      (drainLoop l)[i + 1]? = some Ev.packetUnref
  | [], i, b, h => by simp [drainLoop] at h
  | .pkt true :: rest, i, b, h => by
    match i with
    | 0 => simp [drainLoop] at h
    | 1 => simp [drainLoop]
    | 2 => simp [drainLoop] at h
    | n + 3 =>
      simp only [drainLoop, List.getElem?_cons_succ] at h ⊢
      exact drainLoop_write_then_unref rest n b h
  | .pkt false :: rest, i, b, h => by
    match i with
    | 0 => simp [drainLoop] at h
    | 1 => simp [drainLoop]
    | 2 => simp [drainLoop] at h
    | 3 => simp [drainLoop] at h
    | n + 4 => simp [drainLoop] at h
  | .again :: rest, i, b, h => by
    match i with
    | 0 => simp [drainLoop] at h
    | n + 1 => simp [drainLoop] at h
  | .err :: rest, i, b, h => by
    match i with
    | 0 => simp [drainLoop] at h
    | 1 => simp [drainLoop] at h
    | n + 2 => simp [drainLoop] at h

theorem stamps_append (t1 t2 : List Ev) : stamps (t1 ++ t2) = stamps t1 ++ stamps t2 :=
  List.filterMap_append t1 t2 _

theorem stamps_drainLoop : ∀ l : List DrainResp, stamps (drainLoop l) = []
  | [] => rfl
  | .pkt true :: rest => by
    simpa [drainLoop, stamps] using stamps_drainLoop rest
  | .pkt false :: _ => rfl
  | .again :: _ => rfl
  | .err :: _ => rfl

theorem drainLoop_no_release : ∀ l : List DrainResp,
    (drainLoop l).all (fun e => !isRelease e) = true
  | [] => rfl
  | .pkt true :: rest => by
    simpa [drainLoop, isRelease] using drainLoop_no_release rest
  | .pkt false :: _ => rfl
  | .again :: _ => rfl
  | .err :: _ => rfl

theorem cleanup_streaming_no_acquire (x : RtmpState) :
    ((cleanup_streaming x).2.all fun e => !isAcquire e) = true := by
  simp only [cleanup_streaming]
  split_ifs <;> rfl

theorem initialize_streaming_no_release (x : RtmpState) (env : FfEnv) :
    ((initialize_streaming x env).2.1.all fun e => !isRelease e) = true := by
  obtain ⟨a1, a2, a3, a4, a5, a6, a7, a8, a9, a10, a11, a12, a13, nfs⟩ := env
  cases a1 <;> cases a2 <;> cases a3 <;> cases a4 <;> cases a5 <;> cases a6 <;>
    cases a7 <;> cases a8 <;> cases a9 <;> cases a10 <;> cases a11 <;> cases a13 <;> rfl

theorem initialize_streaming_keeps_fmt_ctx (x : RtmpState) (env : FfEnv)
    (h : env.allocOutputCtxOk = true) :
    (initialize_streaming x env).1.fmt_ctx = true := by
  obtain ⟨a1, a2, a3, a4, a5, a6, a7, a8, a9, a10, a11, a12, a13, nfs⟩ := env
  subst h
  cases a2 <;> cases a3 <;> cases a4 <;> cases a5 <;> cases a6 <;>
    cases a7 <;> cases a8 <;> cases a9 <;> cases a10 <;> cases a11 <;> cases a13 <;> rfl

theorem initialize_streaming_contains_alloc (x : RtmpState) (env : FfEnv) :
    ((initialize_streaming x env).2.1.contains Ev.allocOutputCtx) = true := by
  obtain ⟨a1, a2, a3, a4, a5, a6, a7, a8, a9, a10, a11, a12, a13, nfs⟩ := env
  cases a1 <;> cases a2 <;> cases a3 <;> cases a4 <;> cases a5 <;> cases a6 <;>
    cases a7 <;> cases a8 <;> cases a9 <;> cases a10 <;> cases a11 <;> cases a13 <;> rfl

theorem initialize_streaming_mem_alloc (x : RtmpState) (env : FfEnv) :
    Ev.allocOutputCtx ∈ (initialize_streaming x env).2.1 :=
  List.mem_of_elem_eq_true (initialize_streaming_contains_alloc x env)

theorem rtspstreamer_tilde_new_no_release (s : CStr) (env : FfEnv) :
    ((rtspstreamer_tilde_new s env).2.all fun e => !isRelease e) = true := by
  obtain ⟨a1, a2, a3, a4, a5, a6, a7, a8, a9, a10, a11, a12, a13, nfs⟩ := env
  cases a1 <;> cases a2 <;> cases a3 <;> cases a4 <;> cases a5 <;>
    cases a7 <;> cases a8 <;> cases a9 <;> cases a10 <;> cases a11 <;> cases a12 <;>
    cases a13 <;> rfl

/-- In a trace that is an acquire-free prefix followed by a release-free
suffix, every release call strictly precedes every acquire call. -/
theorem releases_precede {t1 t2 : List Ev}
    (h1 : ∀ e ∈ t1, isAcquire e = false) (h2 : ∀ e ∈ t2, isRelease e = false)
    {i j : Nat} {ei ej : Ev}
    (hie : (t1 ++ t2)[i]? = some ei) (hje : (t1 ++ t2)[j]? = some ej)
    (hri : isRelease ei = true) (haj : isAcquire ej = true) : i < j := by
  have hi1 : i < t1.length := by
    by_contra hge
    push_neg at hge
    rw [List.getElem?_append_right hge] at hie
    obtain ⟨hb, rfl⟩ := List.getElem?_eq_some.mp hie
    rw [h2 _ (List.getElem_mem hb)] at hri
    exact Bool.noConfusion hri
  have hj1 : t1.length ≤ j := by
    by_contra hlt
    push_neg at hlt
    rw [List.getElem?_append_left hlt] at hje
    obtain ⟨hb, rfl⟩ := List.getElem?_eq_some.mp hje
    rw [h1 _ (List.getElem_mem hb)] at haj
    exact Bool.noConfusion haj
  omega

/-- The trace of the RTMP symbol handler splits into the teardown part (which
acquires nothing) followed by the reconnection part (which releases
nothing). -/
theorem rtmp_symbol_trace_split (x : RtmpState) (s : CStr) (env : FfEnv) :
    ∃ t1 t2, (rtmpstreamer_tilde_symbol x s env).2 = t1 ++ t2 ∧
      (∀ e ∈ t1, isAcquire e = false) ∧ (∀ e ∈ t2, isRelease e = false) ∧
      (x.streaming_active = true → t1 = (cleanup_streaming x).2) := by
  have hclean : ∀ e ∈ (cleanup_streaming x).2, isAcquire e = false := by
    intro e he
    have := List.all_eq_true.mp (cleanup_streaming_no_acquire x) e he
    simpa using this
  have hinit : ∀ (y : RtmpState), ∀ e ∈ (initialize_streaming y env).2.1, isRelease e = false := by
    intro y e he
    have := List.all_eq_true.mp (initialize_streaming_no_release y env) e he
    simpa using this
  have hmid : ∀ (y : RtmpState) (m1 m2 : Msg), ∀ e,
      e ∈ [Ev.post m1] ++ (initialize_streaming y env).2.1 ++ [Ev.post m2] →
      isRelease e = false := by
    intro y m1 m2 e he
    simp only [List.mem_append, List.mem_cons, List.not_mem_nil, or_false] at he
    rcases he with (rfl | he) | rfl
    · rfl
    · exact hinit _ e he
    · rfl
  have hmid' : ∀ (y : RtmpState) (m1 m2 : Msg), ∀ e,
      e ∈ [Ev.post m1] ++ (initialize_streaming y env).2.1 ++ [Ev.pdError m2] →
      isRelease e = false := by
    intro y m1 m2 e he
    simp only [List.mem_append, List.mem_cons, List.not_mem_nil, or_false] at he
    rcases he with (rfl | he) | rfl
    · rfl
    · exact hinit _ e he
    · rfl
  cases hs : x.streaming_active
  · simp only [rtmpstreamer_tilde_symbol, hs, Bool.false_eq_true, if_false]
    by_cases hl : 0 < s.length
    · simp only [hl, if_true]
      split_ifs with hret
      · exact ⟨[], _, (List.nil_append _).symm, by simp,
          fun e he => hmid _ _ _ e (by simpa using he),
          fun hc => absurd hc (by simp [hs])⟩
      · exact ⟨[], _, (List.nil_append _).symm, by simp,
          fun e he => hmid' _ _ _ e (by simpa using he),
          fun hc => absurd hc (by simp [hs])⟩
    · simp only [hl, if_false]
      refine ⟨[], [Ev.post .invalidOrEmptyUrl], rfl, by simp, ?_,
        fun hc => absurd hc (by simp [hs])⟩
      intro e he
      simp only [List.mem_cons, List.not_mem_nil, or_false] at he
      subst he
      rfl
  · simp only [rtmpstreamer_tilde_symbol, hs, if_true]
    by_cases hl : 0 < s.length
    · simp only [hl, if_true]
      split_ifs with hret
      · exact ⟨(cleanup_streaming x).2, _, rfl, hclean,
          fun e he => hmid _ _ _ e he, fun _ => rfl⟩
      · exact ⟨(cleanup_streaming x).2, _, rfl, hclean,
          fun e he => hmid' _ _ _ e he, fun _ => rfl⟩
    · simp only [hl, if_false]
      refine ⟨(cleanup_streaming x).2, [Ev.post .invalidOrEmptyUrl], rfl, hclean, ?_,
        fun _ => rfl⟩
      intro e he
      simp only [List.mem_cons, List.not_mem_nil, or_false] at he
      subst he
      rfl

/-! ## Characterisation of one perform call while streaming -/

theorem rtmp_perform_eq {x : RtmpState} {f : AVFrame ℚ} {input : List ℚ} {env : PerformEnv}
    (hs : x.streaming_active = true) (hf : x.frame = some f)
    (hlen : input.length ≤ f.data.length) :
    ∃ d : List ℚ, assembleSamples clampSample f.data input = some d ∧
      d.length = f.data.length ∧
      rtmpstreamer_tilde_perform x input env =
        some ({ x with frame := some ⟨d, input.length, x.pts⟩,
                       pts := x.pts + (input.length : Int) },
          if env.sendOk then
            [Ev.stampFrame x.pts input.length, Ev.sendFrame] ++ drainLoop env.drain
          else
            [Ev.stampFrame x.pts input.length, Ev.sendFrame,
             Ev.pdError .errorSendingFrame]) := by
  obtain ⟨d, hd⟩ := Option.isSome_iff_exists.mp
    ((assembleSamples_isSome clampSample f.data input).mpr hlen)
  refine ⟨d, hd, writeSamples_length input f.data 0 d hd, ?_⟩
  unfold rtmpstreamer_tilde_perform
  rw [hs]
  simp only [hf, hd, if_true]
  split_ifs <;> rfl

theorem rtsp_perform_eq {x : RtspState} {f : AVFrame ℤ} {input : List ℚ} {env : PerformEnv}
    (hf : x.frame = some f) (hlen : input.length ≤ f.data.length) :
    ∃ d : List ℤ, assembleSamples convS16 f.data input = some d ∧
      d.length = f.data.length ∧
      rtspstreamer_tilde_perform x input env =
        some ({ x with frame := some ⟨d, input.length, x.pts⟩,
                       pts := x.pts + (input.length : Int) },
          if env.sendOk then
            [Ev.stampFrame x.pts input.length, Ev.sendFrame] ++ drainLoop env.drain
          else
            [Ev.stampFrame x.pts input.length, Ev.sendFrame,
             Ev.pdError .errorSendingFrame]) := by
  obtain ⟨d, hd⟩ := Option.isSome_iff_exists.mp
    ((assembleSamples_isSome convS16 f.data input).mpr hlen)
  refine ⟨d, hd, writeSamples_length input f.data 0 d hd, ?_⟩
  unfold rtspstreamer_tilde_perform
  simp only [hf, hd]
  split_ifs <;> rfl

theorem stamps_cons_stamp (p : Int) (n : Nat) (l : List Ev) :
    stamps (Ev.stampFrame p n :: l) = p :: stamps l := rfl

theorem stamps_step_trace (p : Int) (n : Nat) (env : PerformEnv) :
    stamps (if env.sendOk then
        [Ev.stampFrame p n, Ev.sendFrame] ++ drainLoop env.drain
      else
        [Ev.stampFrame p n, Ev.sendFrame, Ev.pdError .errorSendingFrame]) = [p] := by
  split_ifs
  · rw [show ([Ev.stampFrame p n, Ev.sendFrame] ++ drainLoop env.drain)
      = Ev.stampFrame p n :: (Ev.sendFrame :: drainLoop env.drain) from rfl]
    rw [stamps_cons_stamp]
    have : stamps (Ev.sendFrame :: drainLoop env.drain) = stamps (drainLoop env.drain) := rfl
    rw [this, stamps_drainLoop]
  · rfl

/-! ## The presentation clock across consecutive blocks -/

theorem runBlocks_stamps :
    ∀ (bs : List (List ℚ × PerformEnv)) (x : RtmpState) (f : AVFrame ℚ),
      x.streaming_active = true → x.frame = some f →
      (∀ b ∈ bs, b.1.length ≤ f.data.length) →
      ∃ x' tr, runBlocks x bs = some (x', tr) ∧
        stamps tr = stampsFrom x.pts (bs.map fun b => b.1.length) ∧
        x'.pts = x.pts + (((bs.map fun b => b.1.length).sum : Nat) : Int) ∧
        x'.streaming_active = true ∧
        ∃ f' : AVFrame ℚ, x'.frame = some f' ∧ f'.data.length = f.data.length
  | [], x, f, hs, hf, _ =>
    ⟨x, [], rfl, by simp [stamps, stampsFrom], by simp, hs, f, hf, rfl⟩
  | (b, env) :: rest, x, f, hs, hf, hb => by
    have hble : b.length ≤ f.data.length := by simpa using hb (b, env) (by simp)
    obtain ⟨d, hd, hdlen, hperf⟩ := @rtmp_perform_eq x f b env hs hf hble
    have hb' : ∀ p ∈ rest, p.1.length ≤ d.length := by
      intro p hp
      rw [hdlen]
      exact hb p (by simp [hp])
    obtain ⟨x2, tr2, hrun, hst, hpts, hsa, f2, hf2, hf2len⟩ :=
      runBlocks_stamps rest
        { x with frame := some ⟨d, b.length, x.pts⟩, pts := x.pts + (b.length : Int) }
        ⟨d, b.length, x.pts⟩ hs rfl hb'
    refine ⟨x2,
      (if env.sendOk then
        [Ev.stampFrame x.pts b.length, Ev.sendFrame] ++ drainLoop env.drain
      else
        [Ev.stampFrame x.pts b.length, Ev.sendFrame,
         Ev.pdError .errorSendingFrame]) ++ tr2,
      ?_, ?_, ?_, hsa, f2, hf2, ?_⟩
    · unfold runBlocks
      rw [hperf]
      simp only [hrun]
    · rw [stamps_append, stamps_step_trace, hst]
      simp [stampsFrom]
    · rw [hpts]
      simp only [List.map_cons, List.sum_cons]
      push_cast
      ring
    · rw [hf2len]
      exact hdlen

/-! ## Concrete fixtures used by witnesses and counterexamples -/

/-- An all-success FFmpeg environment; the codec reports `frame_size = 4`, the
muxer is file-backed (`flv` is not `AVFMT_NOFILE`). -/
def envAllOk : FfEnv :=
  { allocOutputCtxOk := true, findEncoderOk := true, newStreamOk := true,
    allocCodecCtxOk := true, chLayoutOk := true, openCodecOk := true,
    paramsOk := true, formatNoFile := false, avioOpenOk := true,
    writeHeaderOk := true, allocFrameOk := true, frameChLayoutOk := true,
    getBufferOk := true, codecFrameSize := 4 }

/-- The environment in which `avcodec_find_encoder` fails after the output
context was allocated. -/
def envFailFind : FfEnv := { envAllOk with findEncoderOk := false }

/-- A perform environment where everything succeeds and the encoder yields one
packet and then `EAGAIN`. -/
def perfOk : PerformEnv := { sendOk := true, drain := [.pkt true, .again] }

def urlA : CStr := rtmpScheme ++ ['a']

def urlB : CStr := rtmpScheme ++ ['b']

def httpUrl : CStr := ['h', 't', 't', 'p', ':', '/', '/', 'x']

/-- The state of a freshly created object (`rtmpstreamer_tilde_new` with the
empty symbol). -/
def rtmpIdle : RtmpState := (rtmpstreamer_tilde_new []).1

/-- The state after creating the object and then streaming successfully to
`urlA` (used as a concrete reachable `Streaming` state). -/
def rtmpLive : RtmpState := (rtmpstreamer_tilde_symbol rtmpIdle urlA envAllOk).1

/-! ## Auxiliary clamp/conversion facts -/

theorem clampSample_of_lt {s : ℚ} (h : s < -1) : clampSample s = -1 := by
  simp only [clampSample]
  split_ifs <;> linarith

theorem clampSample_of_gt {s : ℚ} (h : 1 < s) : clampSample s = 1 := by
  simp only [clampSample]
  split_ifs <;> linarith

theorem truncQ_intCast (z : ℤ) : truncQ ((z : ℚ)) = z := by
  unfold truncQ
  split_ifs with h
  · exact Int.floor_intCast z
  · exact Int.ceil_intCast z

theorem convS16_neg_one : convS16 (-1) = -32767 := by
  unfold convS16
  rw [clampSample_of_mem (by norm_num) (by norm_num),
    show ((-1 : ℚ) * 32767) = ((-32767 : ℤ) : ℚ) by norm_num]
  exact truncQ_intCast _

theorem convS16_one : convS16 1 = 32767 := by
  unfold convS16
  rw [clampSample_of_mem (by norm_num) (by norm_num),
    show ((1 : ℚ) * 32767) = ((32767 : ℤ) : ℚ) by norm_num]
  exact truncQ_intCast _

/-! ## The claims -/

/-- C6: for every input sample `s`, the emitted sample is the clamp of `s` to
`[-1, 1]` mapped monotonically into the encoder's native range: below `-1` it
equals the image of `-1`, above `1` the image of `1`, and on `[-1, 1]` the
float-planar path is the identity while the 16-bit path is monotone; the
images of the saturation points are `-1`/`1` (float) and `-32767`/`32767`
(16-bit). -/
theorem c6_sample_clamping :
    (∀ s : ℚ, s < -1 → clampSample s = clampSample (-1) ∧ convS16 s = convS16 (-1))
  ∧ (∀ s : ℚ, 1 < s → clampSample s = clampSample 1 ∧ convS16 s = convS16 1)
  ∧ (∀ s t : ℚ, s ≤ t → clampSample s ≤ clampSample t ∧ convS16 s ≤ convS16 t)
  ∧ (∀ s : ℚ, -1 ≤ s → s ≤ 1 → clampSample s = s)
  ∧ clampSample (-1) = -1 ∧ clampSample 1 = 1 ∧ convS16 (-1) = -32767 ∧
    convS16 1 = 32767 := by
  refine ⟨?_, ?_, ?_, fun s h1 h2 => clampSample_of_mem h1 h2,
    clampSample_of_mem (by norm_num) (by norm_num),
    clampSample_of_mem (by norm_num) (by norm_num), convS16_neg_one, convS16_one⟩
  · intro s h
    have hc : clampSample s = clampSample (-1) := by
      rw [clampSample_of_lt h, clampSample_of_mem (by norm_num) (by norm_num)]
    exact ⟨hc, by unfold convS16; rw [hc]⟩
  · intro s h
    have hc : clampSample s = clampSample 1 := by
      rw [clampSample_of_gt h, clampSample_of_mem (by norm_num) (by norm_num)]
    exact ⟨hc, by unfold convS16; rw [hc]⟩
  · intro s t h
    exact ⟨clampSample_mono h,
      truncQ_mono (mul_le_mul_of_nonneg_right (clampSample_mono h) (by norm_num))⟩

theorem c6_sample_clamping_witness :
    ((-2 : ℚ) < -1 ∧ clampSample (-2) = clampSample (-1) ∧ convS16 (-2) = convS16 (-1)) ∧
    ((1 : ℚ) < 2 ∧ clampSample 2 = clampSample 1 ∧ convS16 2 = convS16 1) ∧
    ((0 : ℚ) ≤ 1 ∧ clampSample 0 ≤ clampSample 1 ∧ convS16 0 ≤ convS16 1) ∧
    (-1 ≤ (0 : ℚ) ∧ (0 : ℚ) ≤ 1 ∧ clampSample 0 = 0) := by
  refine ⟨⟨by norm_num, c6_sample_clamping.1 (-2) (by norm_num)⟩,
    ⟨by norm_num, c6_sample_clamping.2.1 2 (by norm_num)⟩,
    ⟨by norm_num, c6_sample_clamping.2.2.1 0 1 (by norm_num)⟩,
    by norm_num, by norm_num, c6_sample_clamping.2.2.2.1 0 (by norm_num) (by norm_num)⟩

/-- C10: in the RTSP variant every clamped sample is converted by truncating
`s * 32767` toward zero, so emitted samples lie in the asymmetric range
`[-32767, 32767]` and `-32768` is never produced. -/
theorem c10_s16_range :
    (∀ s : ℚ, -1 ≤ s → s ≤ 1 → convS16 s = truncQ (s * 32767))
  ∧ (∀ s : ℚ, -32767 ≤ convS16 s ∧ convS16 s ≤ 32767)
  ∧ (∀ s : ℚ, convS16 s ≠ -32768) := by
  have hub : ∀ s : ℚ, convS16 s ≤ 32767 := by
    intro s
    unfold convS16
    refine truncQ_le ?_
    have := mul_le_mul_of_nonneg_right (clampSample_le_one s)
      (by norm_num : (0 : ℚ) ≤ 32767)
    push_cast
    linarith
  have hlb : ∀ s : ℚ, -32767 ≤ convS16 s := by
    intro s
    unfold convS16
    refine le_truncQ ?_
    have := mul_le_mul_of_nonneg_right (neg_one_le_clampSample s)
      (by norm_num : (0 : ℚ) ≤ 32767)
    push_cast
    linarith
  refine ⟨?_, fun s => ⟨hlb s, hub s⟩, ?_⟩
  · intro s h1 h2
    unfold convS16
    rw [clampSample_of_mem h1 h2]
  · intro s h
    have := hlb s
    omega

theorem c10_s16_range_witness :
    (-1 ≤ (1 : ℚ) ∧ (1 : ℚ) ≤ 1 ∧ convS16 1 = truncQ ((1 : ℚ) * 32767)) ∧
    (-32767 ≤ convS16 0 ∧ convS16 0 ≤ 32767) ∧ convS16 0 ≠ -32768 := by
  exact ⟨⟨by norm_num, by norm_num, c10_s16_range.1 1 (by norm_num) (by norm_num)⟩,
    c10_s16_range.2.1 0, c10_s16_range.2.2 0⟩

/-- C1: for every audio block of length `n` delivered while streaming, the
assembler writes all `n` converted samples into the session-owned frame and
sets the frame's declared length (`nb_samples`) and timestamp, performing no
check of `n` against the allocated capacity: the store loop stays in bounds
exactly when `n ≤ capacity`, so the out-of-bounds store is unreachable only
under that precondition. -/
theorem c1_frame_assembler_unchecked :
    (∀ (α : Type) (conv : ℚ → α) (buf : List α) (input : List ℚ),
        (assembleSamples conv buf input).isSome = true ↔ input.length ≤ buf.length)
  ∧ (∀ (α : Type) (conv : ℚ → α) (buf out : List α) (input : List ℚ),
        assembleSamples conv buf input = some out →
        out.length = buf.length ∧
        ∀ j : Nat, j < input.length → out[j]? = (input[j]?).map conv)
  ∧ (∀ (x : RtmpState) (input : List ℚ) (env : PerformEnv) (x' : RtmpState) (tr : List Ev),
        rtmpstreamer_tilde_perform x input env = some (x', tr) →
        x.streaming_active = true →
        ∃ f' : AVFrame ℚ, x'.frame = some f' ∧ f'.nb_samples = input.length ∧
          f'.pts = x.pts)
  ∧ (∀ (x : RtspState) (input : List ℚ) (env : PerformEnv) (x' : RtspState) (tr : List Ev),
        rtspstreamer_tilde_perform x input env = some (x', tr) →
        ∃ f' : AVFrame ℤ, x'.frame = some f' ∧ f'.nb_samples = input.length ∧
          f'.pts = x.pts) := by
  refine ⟨fun α conv buf input => assembleSamples_isSome conv buf input,
    fun α conv buf out input h =>
      ⟨writeSamples_length input buf 0 out h, fun j hj => assembleSamples_get? h hj⟩,
    ?_, ?_⟩
  · intro x input env x' tr h hs
    unfold rtmpstreamer_tilde_perform at h
    rw [hs, if_pos rfl] at h
    split at h
    · exact absurd h (by simp)
    · split at h
      · exact absurd h (by simp)
      · split at h
        all_goals
          injection h with hp
          injection hp with hx ht
          subst hx
          exact ⟨_, rfl, rfl, rfl⟩
  · intro x input env x' tr h
    unfold rtspstreamer_tilde_perform at h
    split at h
    · exact absurd h (by simp)
    · split at h
      · exact absurd h (by simp)
      · split at h
        all_goals
          injection h with hp
          injection hp with hx ht
          subst hx
          exact ⟨_, rfl, rfl, rfl⟩

/-- A successfully constructed RTSP session (used as a concrete witness
state). -/
def rtspLive : RtspState :=
  (rtspstreamer_tilde_new urlA envAllOk).1.getD
    { url := [], fmt_ctx := false, noFile := false, pb := false, audio_st := false,
      codec_ctx := false, frame := none, pts := 0 }

def c1PerfRes : RtmpState × List Ev :=
  (rtmpstreamer_tilde_perform rtmpLive [0, 0] perfOk).getD (rtmpLive, [])

def c1RtspPerfRes : RtspState × List Ev :=
  (rtspstreamer_tilde_perform rtspLive [0, 0] perfOk).getD (rtspLive, [])

theorem c1_frame_assembler_unchecked_witness :
    ((assembleSamples clampSample [(0 : ℚ), 0, 0] [2, -2]).isSome = true ↔
      [(2 : ℚ), -2].length ≤ [(0 : ℚ), 0, 0].length) ∧
    ([(1 : ℚ), -1, 0].length = [(0 : ℚ), 0, 0].length) ∧
    (∃ f' : AVFrame ℚ, c1PerfRes.1.frame = some f' ∧
      f'.nb_samples = [(0 : ℚ), 0].length ∧ f'.pts = rtmpLive.pts) ∧
    (∃ f' : AVFrame ℤ, c1RtspPerfRes.1.frame = some f' ∧
      f'.nb_samples = [(0 : ℚ), 0].length ∧ f'.pts = rtspLive.pts) := by
  refine ⟨c1_frame_assembler_unchecked.1 ℚ clampSample [0, 0, 0] [2, -2],
    (c1_frame_assembler_unchecked.2.1 ℚ clampSample [0, 0, 0] [1, -1, 0] [2, -2]
      (by decide)).1, ?_, ?_⟩
  · exact c1_frame_assembler_unchecked.2.2.1 rtmpLive [0, 0] perfOk
      c1PerfRes.1 c1PerfRes.2 (by decide) (by decide)
  · exact c1_frame_assembler_unchecked.2.2.2 rtspLive [0, 0] perfOk
      c1RtspPerfRes.1 c1RtspPerfRes.2 rfl

/-- C4: while the session is not `Streaming`, the per-block callback returns
without invoking any encoder or transport call: the RTMP perform returns
immediately with an empty call trace, and in the RTSP variant no session
object with the guard unmet can exist because the constructor returns `NULL`
unless the whole connect sequence succeeded. -/
theorem c4_nonstreaming_noop :
    (∀ (x : RtmpState) (input : List ℚ) (env : PerformEnv),
        x.streaming_active = false →
        rtmpstreamer_tilde_perform x input env = some (x, []))
  ∧ (∀ (s : CStr) (env : FfEnv) (st : RtspState),
        (rtspstreamer_tilde_new s env).1 = some st →
        st.fmt_ctx = true ∧ st.codec_ctx = true ∧ st.frame.isSome = true) := by
  constructor
  · intro x input env h
    unfold rtmpstreamer_tilde_perform
    rw [h]
    simp only [Bool.false_eq_true, if_false]
  · intro s env st h
    obtain ⟨a1, a2, a3, a4, a5, a6, a7, a8, a9, a10, a11, a12, a13, nfs⟩ := env
    cases a1 <;> cases a2 <;> cases a3 <;> cases a4 <;> cases a5 <;> cases a7 <;>
      cases a8 <;> cases a9 <;> cases a10 <;> cases a11 <;> cases a12 <;> cases a13 <;>
      first
        | exact absurd h (fun hc => Option.noConfusion hc)
        | (injection h with h1; rw [h1.symm]; exact ⟨rfl, rfl, rfl⟩)

theorem c4_nonstreaming_noop_witness :
    (rtmpIdle.streaming_active = false ∧
      rtmpstreamer_tilde_perform rtmpIdle [1] perfOk = some (rtmpIdle, [])) ∧
    ((rtspstreamer_tilde_new urlA envAllOk).1 = some rtspLive ∧
      rtspLive.fmt_ctx = true ∧ rtspLive.codec_ctx = true ∧
      rtspLive.frame.isSome = true) := by
  refine ⟨⟨by decide, c4_nonstreaming_noop.1 rtmpIdle [1] perfOk (by decide)⟩,
    by decide, ?_⟩
  exact c4_nonstreaming_noop.2 urlA envAllOk rtspLive (by decide)

/-- C8: while `Streaming`, a failed encoder submission is reported and drops
the block (no drain, no transmit); a hard drain error or a failed transmit
ends the drain loop early with a report; every drained packet is released by
`av_packet_unref` immediately after the transmit attempt whether or not the
transmit succeeded; and the perform call never changes `streaming_active`
(the session stays `Streaming`, no teardown). -/
theorem c8_per_block_error_policy :
    (∀ (x : RtmpState) (f : AVFrame ℚ) (input : List ℚ) (env : PerformEnv),
        x.streaming_active = true → x.frame = some f →
        input.length ≤ f.data.length → env.sendOk = false →
        ∃ x' : RtmpState,
          rtmpstreamer_tilde_perform x input env =
            some (x', [Ev.stampFrame x.pts input.length, Ev.sendFrame,
                       Ev.pdError .errorSendingFrame]) ∧
          x'.streaming_active = true)
  ∧ (∀ (l : List DrainResp) (i : Nat) (b : Bool),
        (drainLoop l)[i]? = some (Ev.writeFrame b) →
        (drainLoop l)[i + 1]? = some Ev.packetUnref)
  ∧ (∀ rest : List DrainResp,
        drainLoop (DrainResp.err :: rest) =
          [Ev.recvPacket, Ev.pdError .errorEncodingFrame] ∧
        drainLoop (DrainResp.pkt false :: rest) =
          [Ev.recvPacket, Ev.writeFrame false, Ev.packetUnref,
           Ev.pdError .errorWritingFrame])
  ∧ (∀ (x : RtmpState) (input : List ℚ) (env : PerformEnv) (x' : RtmpState) (tr : List Ev),
        rtmpstreamer_tilde_perform x input env = some (x', tr) →
        x'.streaming_active = x.streaming_active) := by
  refine ⟨?_, drainLoop_write_then_unref, fun rest => ⟨rfl, rfl⟩, ?_⟩
  · intro x f input env hs hf hlen hsend
    obtain ⟨d, -, -, hperf⟩ := @rtmp_perform_eq x f input env hs hf hlen
    rw [hsend] at hperf
    refine ⟨{ x with frame := some ⟨d, input.length, x.pts⟩, pts := x.pts + (input.length : Int) }, ?_, hs⟩
    rw [hperf]
    simp only [Bool.false_eq_true, if_false]
  · intro x input env x' tr h
    unfold rtmpstreamer_tilde_perform at h
    split at h
    · split at h
      · exact absurd h (by simp)
      · split at h
        · exact absurd h (by simp)
        · split at h
          all_goals
            injection h with hp
            injection hp with hx ht
            subst hx
            rfl
    · injection h with hp
      injection hp with hx ht
      subst hx
      rfl

theorem c8_per_block_error_policy_witness :
    (∃ x' : RtmpState,
        rtmpstreamer_tilde_perform rtmpLive (List.replicate 4 0)
            { sendOk := false, drain := [] } =
          some (x', [Ev.stampFrame rtmpLive.pts (List.replicate (4 : Nat) (0 : ℚ)).length,
                     Ev.sendFrame, Ev.pdError .errorSendingFrame]) ∧
        x'.streaming_active = true) ∧
    ((drainLoop [.pkt true, .again])[1]? = some (Ev.writeFrame true) ∧
      (drainLoop [.pkt true, .again])[2]? = some Ev.packetUnref) ∧
    (drainLoop [DrainResp.err] = [Ev.recvPacket, Ev.pdError .errorEncodingFrame] ∧
      drainLoop [DrainResp.pkt false] =
        [Ev.recvPacket, Ev.writeFrame false, Ev.packetUnref,
         Ev.pdError .errorWritingFrame]) ∧
    c1PerfRes.1.streaming_active = rtmpLive.streaming_active := by
  refine ⟨?_, ⟨by decide, ?_⟩, c8_per_block_error_policy.2.2.1 [], ?_⟩
  · exact c8_per_block_error_policy.1 rtmpLive ⟨List.replicate 4 0, 4, 0⟩
      (List.replicate 4 0) { sendOk := false, drain := [] }
      (by decide) (by decide) (by decide) rfl
  · exact c8_per_block_error_policy.2.1 [.pkt true, .again] 1 true (by decide)
  · exact c8_per_block_error_policy.2.2.2 rtmpLive [0, 0] perfOk
      c1PerfRes.1 c1PerfRes.2 (by decide)

/-- C2: when the symbol handler runs while `Streaming`, the complete teardown
of the previous session is the initial segment of its call trace, so every
release call precedes every acquisition call for the new endpoint — at no
point are two sessions' resources held at once; the RTSP symbol handler makes
no acquisition or release call at all. -/
theorem c2_teardown_before_reacquire :
    (∀ (x : RtmpState) (s : CStr) (env : FfEnv) (i j : Nat) (ei ej : Ev),
        (rtmpstreamer_tilde_symbol x s env).2[i]? = some ei →
        (rtmpstreamer_tilde_symbol x s env).2[j]? = some ej →
        isRelease ei = true → isAcquire ej = true → i < j)
  ∧ (∀ (x : RtmpState) (s : CStr) (env : FfEnv), x.streaming_active = true →
        ∃ t2, (rtmpstreamer_tilde_symbol x s env).2 = (cleanup_streaming x).2 ++ t2 ∧
          ∀ e ∈ t2, isRelease e = false)
  ∧ (∀ (x : RtspState) (s : CStr), ∀ e ∈ (rtspstreamer_tilde_symbol x s).2,
        isAcquire e = false ∧ isRelease e = false) := by
  refine ⟨?_, ?_, ?_⟩
  · intro x s env i j ei ej hie hje hri haj
    obtain ⟨t1, t2, heq, h1, h2, -⟩ := rtmp_symbol_trace_split x s env
    rw [heq] at hie hje
    exact releases_precede h1 h2 hie hje hri haj
  · intro x s env hs
    obtain ⟨t1, t2, heq, -, h2, h3⟩ := rtmp_symbol_trace_split x s env
    exact ⟨t2, by rw [heq, h3 hs], h2⟩
  · intro x s e he
    simp only [rtspstreamer_tilde_symbol, List.mem_cons, List.not_mem_nil, or_false] at he
    subst he
    exact ⟨rfl, rfl⟩

theorem c2_teardown_before_reacquire_witness :
    ((rtmpstreamer_tilde_symbol rtmpLive urlB envAllOk).2[0]? = some Ev.writeTrailer ∧
      (rtmpstreamer_tilde_symbol rtmpLive urlB envAllOk).2[8]? = some Ev.allocOutputCtx ∧
      isRelease Ev.writeTrailer = true ∧ isAcquire Ev.allocOutputCtx = true ∧
      (0 : Nat) < 8) ∧
    (rtmpLive.streaming_active = true ∧
      ∃ t2, (rtmpstreamer_tilde_symbol rtmpLive urlB envAllOk).2 =
          (cleanup_streaming rtmpLive).2 ++ t2 ∧ ∀ e ∈ t2, isRelease e = false) ∧
    (isAcquire (Ev.pdError .changingUrlUnsupported) = false ∧
      isRelease (Ev.pdError .changingUrlUnsupported) = false) := by
  refine ⟨⟨by decide, by decide, rfl, rfl, ?_⟩, ⟨by decide, ?_⟩, ?_⟩
  · exact c2_teardown_before_reacquire.1 rtmpLive urlB envAllOk 0 8
      Ev.writeTrailer Ev.allocOutputCtx (by decide) (by decide) rfl rfl
  · exact c2_teardown_before_reacquire.2.1 rtmpLive urlB envAllOk (by decide)
  · exact c2_teardown_before_reacquire.2.2 rtspLive urlB
      (Ev.pdError .changingUrlUnsupported) (by simp [rtspstreamer_tilde_symbol])

/-- C3 counterexample: inject a failure at the codec-lookup sub-step (the
output context was already allocated).  `initialize_streaming` returns `-1`,
yet the object still holds the format context and its trace contains no
release call — the claim that every acquired resource is released before the
operation returns is false on this code. -/
theorem c3_counterexample :
    (initialize_streaming rtmpIdle envFailFind).2.2 = -1 ∧
    (initialize_streaming rtmpIdle envFailFind).1.fmt_ctx = true ∧
    ((initialize_streaming rtmpIdle envFailFind).2.1.all fun e => !isRelease e) = true := by
  exact ⟨rfl, rfl, rfl⟩

/-- C3 (amended): if a connect sub-step fails, the operation aborts and
reports, but the resources acquired by the preceding sub-steps are NOT
released — no release call ever appears in the connect sequence, and an
allocated output context stays held in the returned object.  Likewise the
RTSP constructor never releases anything on its failure paths. -/
theorem c3_amended_failure_retains_resources :
    (∀ (x : RtmpState) (env : FfEnv),
        ((initialize_streaming x env).2.1.all fun e => !isRelease e) = true ∧
        (env.allocOutputCtxOk = true → (initialize_streaming x env).1.fmt_ctx = true))
  ∧ (∀ (s : CStr) (env : FfEnv),
        ((rtspstreamer_tilde_new s env).2.all fun e => !isRelease e) = true) :=
  ⟨fun x env => ⟨initialize_streaming_no_release x env,
      fun h => initialize_streaming_keeps_fmt_ctx x env h⟩,
    fun s env => rtspstreamer_tilde_new_no_release s env⟩

theorem c3_amended_failure_retains_resources_witness :
    envFailFind.allocOutputCtxOk = true ∧
    (initialize_streaming rtmpIdle envFailFind).1.fmt_ctx = true ∧
    ((initialize_streaming rtmpIdle envFailFind).2.1.all fun e => !isRelease e) = true ∧
    ((rtspstreamer_tilde_new urlA envFailFind).2.all fun e => !isRelease e) = true := by
  refine ⟨rfl, ?_, (c3_amended_failure_retains_resources.1 rtmpIdle envFailFind).1,
    c3_amended_failure_retains_resources.2 urlA envFailFind⟩
  exact (c3_amended_failure_retains_resources.1 rtmpIdle envFailFind).2 rfl

/-- The streaming state after one 4-sample block: its presentation clock is
4.  (Reachable run: create, connect to `urlA`, process one block.) -/
def rtmpLive4 : RtmpState :=
  ((rtmpstreamer_tilde_perform rtmpLive (List.replicate 4 0) perfOk).getD
    (rtmpLive, [])).1

theorem cleanup_streaming_fmt_ctx (x : RtmpState) :
    (cleanup_streaming x).1.fmt_ctx = false := by
  simp only [cleanup_streaming]
  split_ifs <;> simp_all

theorem cleanup_streaming_codec_ctx (x : RtmpState) :
    (cleanup_streaming x).1.codec_ctx = false := by
  simp only [cleanup_streaming]
  split_ifs <;> simp_all

theorem cleanup_streaming_frame (x : RtmpState) :
    (cleanup_streaming x).1.frame = none := by
  simp only [cleanup_streaming]
  split_ifs <;> simp_all

theorem cleanup_streaming_pts (x : RtmpState) :
    (cleanup_streaming x).1.pts = x.pts := by
  simp only [cleanup_streaming]
  split_ifs <;> simp_all

theorem cleanup_streaming_of_idle (x : RtmpState) (h1 : x.fmt_ctx = false)
    (h2 : x.codec_ctx = false) (h3 : x.frame = none) :
    cleanup_streaming x = (x, [Ev.networkDeinit]) := by
  simp only [cleanup_streaming, h1, h2, h3, Bool.false_eq_true, if_false,
    Option.isSome_none, List.nil_append, List.append_nil]

/-- C7 counterexample: teardown of a session whose clock is 4 leaves the
clock at 4 — `cleanup_streaming` does not reset the presentation clock,
contrary to the claim. -/
theorem c7_counterexample :
    rtmpLive4.pts = 4 ∧ (cleanup_streaming rtmpLive4).1.pts = 4 ∧ (4 : Int) ≠ 0 := by
  exact ⟨by decide, by decide, by decide⟩

/-- C7 (amended): `cleanup_streaming` writes the trailer when a format
context is held, closes the transport when it owns one (muxer not
`AVFMT_NOFILE`), releases the codec context and the frame, and is idempotent
— a second call, or a call on a handle-free session, releases nothing and
changes nothing (only `avformat_network_deinit` runs).  It does NOT reset the
presentation clock.  The RTSP destructor likewise releases all handles and
leaves `pts` untouched. -/
theorem c7_amended_teardown :
    (∀ x : RtmpState,
        (cleanup_streaming x).1.fmt_ctx = false ∧
        (cleanup_streaming x).1.codec_ctx = false ∧
        (cleanup_streaming x).1.frame = none ∧
        (cleanup_streaming x).1.pts = x.pts ∧
        (x.fmt_ctx = true → Ev.writeTrailer ∈ (cleanup_streaming x).2) ∧
        (x.fmt_ctx = true → x.noFile = false → Ev.avioClose ∈ (cleanup_streaming x).2) ∧
        (x.codec_ctx = true → Ev.freeCodecCtx ∈ (cleanup_streaming x).2) ∧
        (x.frame.isSome = true → Ev.freeFrame ∈ (cleanup_streaming x).2) ∧
        cleanup_streaming (cleanup_streaming x).1 =
          ((cleanup_streaming x).1, [Ev.networkDeinit]))
  ∧ (∀ x : RtspState,
        (rtspstreamer_tilde_free x).1.fmt_ctx = false ∧
        (rtspstreamer_tilde_free x).1.codec_ctx = false ∧
        (rtspstreamer_tilde_free x).1.frame = none ∧
        (rtspstreamer_tilde_free x).1.pts = x.pts) := by
  constructor
  · intro x
    refine ⟨cleanup_streaming_fmt_ctx x, cleanup_streaming_codec_ctx x,
      cleanup_streaming_frame x, cleanup_streaming_pts x, ?_, ?_, ?_, ?_,
      cleanup_streaming_of_idle _ (cleanup_streaming_fmt_ctx x)
        (cleanup_streaming_codec_ctx x) (cleanup_streaming_frame x)⟩
    · intro h
      simp only [cleanup_streaming]
      split_ifs <;> simp_all
    · intro h h2
      simp only [cleanup_streaming]
      split_ifs <;> simp_all
    · intro h
      simp only [cleanup_streaming]
      split_ifs <;> simp_all
    · intro h
      simp only [cleanup_streaming]
      split_ifs <;> simp_all
  · intro x
    simp only [rtspstreamer_tilde_free]
    split_ifs <;> simp_all

theorem c7_amended_teardown_witness :
    ((cleanup_streaming rtmpLive4).1.fmt_ctx = false ∧
      (cleanup_streaming rtmpLive4).1.pts = rtmpLive4.pts) ∧
    (rtmpLive4.fmt_ctx = true ∧ Ev.writeTrailer ∈ (cleanup_streaming rtmpLive4).2) ∧
    (rtmpLive4.noFile = false ∧ Ev.avioClose ∈ (cleanup_streaming rtmpLive4).2) ∧
    (rtmpLive4.codec_ctx = true ∧ Ev.freeCodecCtx ∈ (cleanup_streaming rtmpLive4).2) ∧
    (rtmpLive4.frame.isSome = true ∧ Ev.freeFrame ∈ (cleanup_streaming rtmpLive4).2) ∧
    cleanup_streaming (cleanup_streaming rtmpLive4).1 =
      ((cleanup_streaming rtmpLive4).1, [Ev.networkDeinit]) ∧
    (rtspstreamer_tilde_free rtspLive).1.pts = rtspLive.pts := by
  have h := c7_amended_teardown.1 rtmpLive4
  exact ⟨⟨h.1, h.2.2.2.1⟩, ⟨by decide, h.2.2.2.2.1 (by decide)⟩,
    ⟨by decide, h.2.2.2.2.2.1 (by decide) (by decide)⟩,
    ⟨by decide, h.2.2.2.2.2.2.1 (by decide)⟩,
    ⟨by decide, h.2.2.2.2.2.2.2.1 (by decide)⟩,
    h.2.2.2.2.2.2.2.2,
    (c7_amended_teardown.2 rtspLive).2.2.2⟩

/-- C9 counterexample: `"http://x"` is non-empty but fails
`is_valid_rtmp_url`; sending it to the symbol handler of an idle object
nevertheless triggers the whole connection attempt (the output-context
allocation appears in the trace) and, with a cooperative environment, even
reaches `Streaming` — setting an invalid non-empty endpoint is not a silent
no-op. -/
theorem c9_counterexample :
    is_valid_rtmp_url httpUrl = false ∧ 0 < httpUrl.length ∧
    ((rtmpstreamer_tilde_symbol rtmpIdle httpUrl envAllOk).2.contains
      Ev.allocOutputCtx) = true ∧
    (rtmpstreamer_tilde_symbol rtmpIdle httpUrl envAllOk).1.streaming_active = true := by
  exact ⟨rfl, by decide, rfl, rfl⟩

/-- C9 (amended): the scheme validation gates only the constructor, which
never attempts a connection for any endpoint (it stores the URL and posts one
informational line, acquiring nothing and staying non-streaming).  The symbol
handler validates only non-emptiness: the empty endpoint is a silent no-op
(state unchanged except the stored URL, one informational log, session stays
non-streaming), while every non-empty endpoint — valid or not — triggers a
connection attempt. -/
theorem c9_amended_validation :
    (∀ s : CStr,
        ((rtmpstreamer_tilde_new s).2.all fun e => !isAcquire e) = true ∧
        (rtmpstreamer_tilde_new s).1.streaming_active = false ∧
        (rtmpstreamer_tilde_new s).1.fmt_ctx = false ∧
        (rtmpstreamer_tilde_new s).1.codec_ctx = false ∧
        (rtmpstreamer_tilde_new s).1.frame = none ∧
        ∃ m : Msg, (rtmpstreamer_tilde_new s).2 = [Ev.post m])
  ∧ (∀ (x : RtmpState) (env : FfEnv), x.streaming_active = false →
        rtmpstreamer_tilde_symbol x [] env =
          ({ x with url := some ([] : CStr) }, [Ev.post .invalidOrEmptyUrl]))
  ∧ (∀ (x : RtmpState) (env : FfEnv) (s : CStr), 0 < s.length →
        Ev.allocOutputCtx ∈ (rtmpstreamer_tilde_symbol x s env).2) := by
  refine ⟨?_, ?_, ?_⟩
  · intro s
    unfold rtmpstreamer_tilde_new
    split_ifs <;> exact ⟨rfl, rfl, rfl, rfl, rfl, _, rfl⟩
  · intro x env h
    simp only [rtmpstreamer_tilde_symbol, h, Bool.false_eq_true, if_false,
      List.length_nil, lt_self_iff_false, List.nil_append]
  · intro x env s hl
    cases hxs : x.streaming_active
    · simp only [rtmpstreamer_tilde_symbol, hxs, Bool.false_eq_true, if_false, hl, if_true]
      split_ifs <;>
        exact List.mem_append.mpr (Or.inr (List.mem_append.mpr (Or.inl
          (List.mem_append.mpr (Or.inr (initialize_streaming_mem_alloc _ _))))))
    · simp only [rtmpstreamer_tilde_symbol, hxs, if_true, hl]
      split_ifs <;>
        exact List.mem_append.mpr (Or.inr (List.mem_append.mpr (Or.inl
          (List.mem_append.mpr (Or.inr (initialize_streaming_mem_alloc _ _))))))

theorem c9_amended_validation_witness :
    (((rtmpstreamer_tilde_new httpUrl).2.all fun e => !isAcquire e) = true ∧
      (rtmpstreamer_tilde_new httpUrl).1.streaming_active = false) ∧
    (rtmpIdle.streaming_active = false ∧
      rtmpstreamer_tilde_symbol rtmpIdle [] envAllOk =
        ({ rtmpIdle with url := some ([] : CStr) }, [Ev.post .invalidOrEmptyUrl])) ∧
    (0 < httpUrl.length ∧
      Ev.allocOutputCtx ∈ (rtmpstreamer_tilde_symbol rtmpIdle httpUrl envAllOk).2) := by
  refine ⟨⟨(c9_amended_validation.1 httpUrl).1, (c9_amended_validation.1 httpUrl).2.1⟩,
    ⟨by decide, c9_amended_validation.2.1 rtmpIdle envAllOk (by decide)⟩,
    ⟨by decide, c9_amended_validation.2.2 rtmpIdle envAllOk httpUrl (by decide)⟩⟩

/-- The object after create → connect to `urlA` → one 4-sample block →
`setEndpoint urlB` (teardown plus successful reconnection). -/
def c5Reconnected : RtmpState :=
  (rtmpstreamer_tilde_symbol rtmpLive4 urlB envAllOk).1

/-- C5 counterexample: after the second successful
`Connecting → Streaming` transition the presentation clock is 4, not 0 (it
was advanced by the block processed during the first session and never
reset), and the first frame stamped after that transition carries timestamp
4 instead of the sum (0) of the lengths of the blocks processed since the
transition. -/
theorem c5_counterexample :
    c5Reconnected.streaming_active = true ∧ c5Reconnected.pts = 4 ∧
    ((rtmpstreamer_tilde_perform c5Reconnected (List.replicate 4 0) perfOk).map
      fun p => stamps p.2) = some [4] ∧
    (4 : Int) ≠ 0 := by
  exact ⟨by decide, by decide, by decide, by decide⟩

/-- C5 (amended): the presentation clock is set to 0 at object creation only
and is never reset afterwards (teardown leaves it untouched); across
consecutive blocks processed while `Streaming`, the k-th frame's timestamp
equals the clock value at the start plus the sum of the lengths of the
preceding blocks, and the clock ends advanced by the total length. -/
theorem c5_amended_presentation_clock :
    (∀ s : CStr, (rtmpstreamer_tilde_new s).1.pts = 0)
  ∧ (∀ (bs : List (List ℚ × PerformEnv)) (x : RtmpState) (f : AVFrame ℚ),
        x.streaming_active = true → x.frame = some f →
        (∀ b ∈ bs, b.1.length ≤ f.data.length) →
        ∃ x' tr, runBlocks x bs = some (x', tr) ∧
          stamps tr = stampsFrom x.pts (bs.map fun b => b.1.length) ∧
          x'.pts = x.pts + (((bs.map fun b => b.1.length).sum : Nat) : Int))
  ∧ (∀ x : RtmpState, (cleanup_streaming x).1.pts = x.pts) := by
  refine ⟨?_, ?_, cleanup_streaming_pts⟩
  · intro s
    unfold rtmpstreamer_tilde_new
    split_ifs <;> rfl
  · intro bs x f hs hf hb
    obtain ⟨x', tr, hrun, hst, hpts, -⟩ := runBlocks_stamps bs x f hs hf hb
    exact ⟨x', tr, hrun, hst, hpts⟩

theorem c5_amended_presentation_clock_witness :
    (rtmpstreamer_tilde_new urlA).1.pts = 0 ∧
    (∃ x' tr,
      runBlocks rtmpLive [(List.replicate 4 0, perfOk), ([1, 1], perfOk)] =
        some (x', tr) ∧
      stamps tr = stampsFrom rtmpLive.pts
        ([(List.replicate (4 : Nat) (0 : ℚ), perfOk), ([1, 1], perfOk)].map
          fun b => b.1.length) ∧
      x'.pts = rtmpLive.pts +
        ((([(List.replicate (4 : Nat) (0 : ℚ), perfOk), ([1, 1], perfOk)].map
          fun b => b.1.length).sum : Nat) : Int)) ∧
    (cleanup_streaming rtmpLive4).1.pts = rtmpLive4.pts := by
  refine ⟨c5_amended_presentation_clock.1 urlA, ?_,
    c5_amended_presentation_clock.2.2 rtmpLive4⟩
  exact c5_amended_presentation_clock.2.1
    [(List.replicate 4 0, perfOk), ([1, 1], perfOk)] rtmpLive
    ⟨List.replicate 4 0, 4, 0⟩ (by decide) (by decide) (by decide)
